import Mathlib

/-!
Verification development for the adeploy deployment service.

The definitions below are a shallow embedding of the Rust sources:
  src/server.rs   (request handler, deployment orchestration, config watcher)
  src/deploy.rs   (deployment engine: hooks, hash verification, backup, extraction)
  src/auth.rs     (Ed25519 helper; the cryptographic primitive itself is an oracle)
  src/config.rs   (configuration data model)
  src/client.rs   (client-side deployment loop)
  src/error.rs    (error taxonomy)
  src/deploy_log.rs (structured log entries)

Modelling conventions:
  - Byte strings are List Nat.  SHA-256, Ed25519 verification, the shell, and
    the filesystem operations (backup copy, create_dir_all, tar extraction)
    are external effects; they are supplied as oracle fields of an environment
    record, and each engine function additionally returns the ordered trace of
    filesystem/subprocess effects it attempted, so that statements about
    "no extraction happened" or "the pre-hook ran" are expressible.
  - Base64 (the base64 crate, STANDARD engine) is implemented concretely,
    since the handler branches on decode failure.
  - log2 process logging (info!/warn!/error! macros) is not part of the state
    we model; only the structured DeployLogEntry transcript returned to the
    client is.
-/

set_option autoImplicit false

namespace Adeploy

/-- Single-quote character as a string, used to reproduce Rust format strings
such as (in deploy.rs) the message Script {quote}{path}{quote} execution failed. -/
def sq : String := String.singleton (Char.ofNat 39)

/-- Log level of a structured deployment log entry (src/deploy_log.rs). -/
inductive LogLevel where
  | info
  | warn
  | error
  deriving DecidableEq, Repr

/-- A structured deployment log entry (src/deploy_log.rs, DeployLogEntry). -/
structure DeployLogEntry where
  level : LogLevel
  message : String
  deriving DecidableEq, Repr

/-- DeployLogEntry::info (src/deploy_log.rs). -/
def DeployLogEntry.info (message : String) : DeployLogEntry :=
  { level := LogLevel.info, message := message }

/-- DeployLogEntry.warn constructor (src/deploy_log.rs). -/
def DeployLogEntry.warn (message : String) : DeployLogEntry :=
  { level := LogLevel.warn, message := message }

/-- DeployLogEntry.error constructor (src/deploy_log.rs). -/
def DeployLogEntry.error (message : String) : DeployLogEntry :=
  { level := LogLevel.error, message := message }

/-- gRPC status kinds produced by the request handler (tonic::Status values
built in src/server.rs deploy). -/
inductive GrpcStatus where
  | invalidArgument (message : String)
  | unauthenticated (message : String)
  | notFound (message : String)
  | resourceExhausted (message : String)
  deriving DecidableEq, Repr

/-- Debug rendering of the tonic status code, used by the Display impl of
AdeployError::Grpc (src/error.rs). -/
def GrpcStatus.codeDebug : GrpcStatus → String
  | .invalidArgument _ => "InvalidArgument"
  | .unauthenticated _ => "Unauthenticated"
  | .notFound _ => "NotFound"
  | .resourceExhausted _ => "ResourceExhausted"

/-- Message payload of a gRPC status. -/
def GrpcStatus.message : GrpcStatus → String
  | .invalidArgument m => m
  | .unauthenticated m => m
  | .notFound m => m
  | .resourceExhausted m => m

/-- The error taxonomy of src/error.rs (AdeployError).  The Io, Toml and Serde
arms are wrappers produced by From impls and never constructed by the code
paths modelled here, so they are omitted. -/
inductive AdeployError where
  | Config (msg : String)
  | Network (msg : String)
  | Auth (msg : String)
  | Deploy (msg : String)
  | FileSystem (msg : String)
  | Grpc (status : GrpcStatus)
  deriving DecidableEq, Repr

/-- The Display implementation of AdeployError derived by thiserror in
src/error.rs (the format strings of each variant). -/
def AdeployError.display : AdeployError → String
  | .Config m => "Configuration error: " ++ m
  | .Network m => "Network error: " ++ m
  | .Auth m => "Authentication error: " ++ m
  | .Deploy m => "Deploy error: " ++ m
  | .FileSystem m => "File system error: " ++ m
  | .Grpc s => "gRPC error (code: " ++ s.codeDebug ++ ", message: " ++ s.message ++ ")"

/-! ### Base64 (base64 crate, general_purpose::STANDARD engine) -/

/-- Value of one character of the standard base64 alphabet. -/
def base64CharVal (c : Char) : Option Nat :=
  if 65 ≤ c.toNat ∧ c.toNat ≤ 90 then some (c.toNat - 65)
  else if 97 ≤ c.toNat ∧ c.toNat ≤ 122 then some (c.toNat - 97 + 26)
  else if 48 ≤ c.toNat ∧ c.toNat ≤ 57 then some (c.toNat - 48 + 52)
  else if c = Char.ofNat 43 then some 62
  else if c = Char.ofNat 47 then some 63
  else none

/-- The padding character of standard base64. -/
def base64Pad : Char := Char.ofNat 61

/-- Strict base64 decoding of a list of characters in groups of four, with
canonical padding required (the behaviour of the STANDARD engine used in
src/server.rs and src/auth.rs). -/
def base64DecodeGroups : List Char → Option (List Nat)
  | [] => some []
  | c1 :: c2 :: c3 :: c4 :: rest =>
    match base64CharVal c1, base64CharVal c2 with
    | some v1, some v2 =>
      if c3 = base64Pad then
        if c4 = base64Pad ∧ rest = [] ∧ v2 % 16 = 0 then
          some [v1 * 4 + v2 / 16]
        else none
      else
        match base64CharVal c3 with
        | some v3 =>
          if c4 = base64Pad then
            if rest = [] ∧ v3 % 4 = 0 then
              some [v1 * 4 + v2 / 16, v2 % 16 * 16 + v3 / 4]
            else none
          else
            match base64CharVal c4 with
            | some v4 =>
              (base64DecodeGroups rest).map
                (fun tail => (v1 * 4 + v2 / 16) :: (v2 % 16 * 16 + v3 / 4) ::
                  (v3 % 4 * 64 + v4) :: tail)
            | none => none
        | none => none
    | _, _ => none
  | _ => none

/-- Base64 decoding of a string (general_purpose::STANDARD.decode). -/
def base64Decode (s : String) : Option (List Nat) :=
  base64DecodeGroups s.toList

/-- The standard base64 alphabet. -/
def base64Chars : List Char :=
  String.toList "ABCDEFGHIJKLMNOPQRSTUVWXYZabcdefghijklmnopqrstuvwxyz0123456789+/"

/-- Character of the standard base64 alphabet at a given six-bit value. -/
def base64CharAt (n : Nat) : Char :=
  base64Chars.getD n base64Pad

/-- Base64 encoding of a byte list in groups of three. -/
def base64EncodeGroups : List Nat → List Char
  | [] => []
  | [b1] =>
    [base64CharAt (b1 / 4), base64CharAt (b1 % 4 * 16), base64Pad, base64Pad]
  | [b1, b2] =>
    [base64CharAt (b1 / 4), base64CharAt (b1 % 4 * 16 + b2 / 16),
     base64CharAt (b2 % 16 * 4), base64Pad]
  | b1 :: b2 :: b3 :: rest =>
    base64CharAt (b1 / 4) :: base64CharAt (b1 % 4 * 16 + b2 / 16) ::
      base64CharAt (b2 % 16 * 4 + b3 / 64) :: base64CharAt (b3 % 64) ::
      base64EncodeGroups rest

/-- Base64 encoding of a byte list as a string
(general_purpose::STANDARD.encode, used in src/client.rs). -/
def base64Encode (bytes : List Nat) : String :=
  String.mk (base64EncodeGroups bytes)

/-! ### Configuration data model (src/config.rs) -/

/-- Package configuration for the client (src/config.rs, ClientPackageConfig). -/
structure ClientPackageConfig where
  sources : List String
  deriving DecidableEq, Repr

/-- Remote server entry of the client configuration
(src/config.rs, RemoteConfig). -/
structure RemoteConfig where
  port : Nat
  timeout : Nat
  max_file_size : Option Nat
  deriving DecidableEq, Repr

/-- Client configuration (src/config.rs, ClientConfig).  The Rust HashMaps are
modelled as association lists; lookup is first match. -/
structure ClientConfig where
  packages : List (String × ClientPackageConfig)
  remotes : List (String × RemoteConfig)
  deriving DecidableEq, Repr

/-- Package deployment configuration for the server
(src/config.rs, ServerPackageConfig). -/
structure ServerPackageConfig where
  deploy_path : String
  before_deploy_script : Option String
  after_deploy_script : Option String
  backup_enabled : Bool
  backup_path : Option String
  deriving DecidableEq, Repr

/-- Server settings (src/config.rs, ServerSettings). -/
structure ServerSettings where
  port : Nat
  max_file_size : Nat
  allowed_keys : List String
  deriving DecidableEq, Repr

/-- Server configuration (src/config.rs, ServerConfig). -/
structure ServerConfig where
  packages : List (String × ServerPackageConfig)
  server : ServerSettings
  deriving DecidableEq, Repr

/-- HashMap::get on the server package map
(config.packages.get in src/server.rs deploy). -/
def lookupPackage (packages : List (String × ServerPackageConfig))
    (name : String) : Option ServerPackageConfig :=
  (packages.find? (fun p => p.1 == name)).map Prod.snd

/-- HashMap::get on the client package map
(config.packages.get in src/client.rs deploy_packages). -/
def lookupClientPackage (packages : List (String × ClientPackageConfig))
    (name : String) : Option ClientPackageConfig :=
  (packages.find? (fun p => p.1 == name)).map Prod.snd

/-- get_remote_config (src/config.rs): entry for the host key, falling back to
the literal key default. -/
def get_remote_config (client_config : ClientConfig) (ip : String) :
    Option RemoteConfig :=
  match (client_config.remotes.find? (fun p => p.1 == ip)).map Prod.snd with
  | some r => some r
  | none => (client_config.remotes.find? (fun p => p.1 == "default")).map Prod.snd

/-! ### Wire messages (proto adeploy, fields as used by the code) -/

/-- The deploy request message.  The metadata map is accepted and ignored by
the server and always empty on the client, so it is omitted. -/
structure DeployRequest where
  package_name : String
  version : String
  file_data : List Nat
  file_hash : String
  signature : String
  public_key : String
  deriving DecidableEq, Repr

/-- The deploy response message (success flag, human summary, deploy id,
structured log transcript).  The proto encoding of log levels
(AdeployService::encode_logs / map_log_level in src/server.rs) is a bijection
on levels, so the transcript is kept as DeployLogEntry values. -/
structure DeployResponse where
  success : Bool
  message : String
  deploy_id : String
  logs : List DeployLogEntry
  deriving DecidableEq, Repr

/-! ### Deployment engine (src/deploy.rs) with an explicit effect trace -/

/-- Captured output of one subprocess run through the host shell
(std::process::Output as consumed by execute_script in src/deploy.rs).
stdout/stderr are already split into lines (String::lines of a lossy UTF-8
decode); success and exit_code mirror status.success() and
status.code().unwrap_or(-1). -/
structure ScriptOutput where
  stdout_lines : List String
  stderr_lines : List String
  exit_code : Int
  success : Bool
  deriving DecidableEq, Repr

/-- One attempted filesystem or subprocess effect of the engine.  The trace of
these effects is returned alongside each result so claims about what ran
before a failure are expressible. -/
inductive FsEffect where
  | execScript (cmd : String)
  | backup (package_name : String)
  | ensureDir (path : String)
  | extract (path : String)
  deriving DecidableEq, Repr

/-- The environment of one deployment: the deploy id minted by
DeployManager::new (a UUIDv4, opaque here), and oracles for the external
effects used by the engine.  shell returns the captured output of running a
command string through sh -c (spawn failure is the error arm); sha256 is the
hex digest of a byte string; verify is Auth::verify_signature from
src/auth.rs; backup, ensureDir and unpack are the outcomes of the backup
snapshot copy (create_backup), fs::create_dir_all on the deploy path, and the
gzip-tar extraction (unpack_archive). -/
structure DeployEnv where
  deploy_id : String
  sha256 : List Nat → String
  verify : String → List Nat → List Nat → Except AdeployError Bool
  shell : String → Except String ScriptOutput
  backup : Except AdeployError Unit
  ensureDir : Except AdeployError Unit
  unpack : Except AdeployError Unit

/-- execute_script (src/deploy.rs, lines 170-212): run a command through the
host shell, collect stdout lines and STDERR-prefixed stderr lines, fail with
DeployError on spawn failure or non-zero exit. -/
def execute_script (env : DeployEnv) (script_path : String) :
    Except AdeployError (List String) × List FsEffect :=
  match env.shell script_path with
  | .error e =>
    (.error (.Deploy ("Failed to execute script " ++ sq ++ script_path ++ sq ++
      ": " ++ e)), [.execScript script_path])
  | .ok out =>
    let logs := out.stdout_lines ++
      out.stderr_lines.map (fun s => "STDERR: " ++ s)
    if out.success then
      (.ok logs, [.execScript script_path])
    else
      (.error (.Deploy ("Script " ++ sq ++ script_path ++ sq ++
        " execution failed with exit code: " ++ toString out.exit_code)),
       [.execScript script_path])

/-- run_deploy_script (src/deploy.rs, lines 269-290): an unset command is
skipped (an info line goes to the process log only) and yields an empty log
list; a configured command string is always handed to execute_script. -/
def run_deploy_script (env : DeployEnv) (script_path : Option String)
    (stage_name : String) : Except AdeployError (List String) × List FsEffect :=
  match script_path with
  | none => (.ok [], [])
  | some path => execute_script env path

/-- create_backup (src/deploy.rs, lines 215-237): the whole snapshot
(backup-directory resolution, create_dir_all, recursive copy if the deploy
directory exists, content listing) is collapsed into the single oracle
outcome env.backup together with one backup trace entry. -/
def create_backup (env : DeployEnv) (config : ServerPackageConfig)
    (package_name : String) : Except AdeployError Unit × List FsEffect :=
  if config.backup_enabled then
    (env.backup, [.backup package_name])
  else
    (.ok (), [])

/-- extract_files (src/deploy.rs, lines 120-147): recompute the SHA-256 of the
archive and compare with the claimed hash; on match, optionally snapshot, then
ensure the deploy directory exists, then unpack the archive into it. -/
def extract_files (env : DeployEnv) (archive_data : List Nat)
    (expected_hash : String) (config : ServerPackageConfig)
    (package_name : String) : Except AdeployError Unit × List FsEffect :=
  let actual_hash := env.sha256 archive_data
  if actual_hash ≠ expected_hash then
    (.error (.Deploy ("Hash verification failed. Expected: " ++ expected_hash ++
      ", Actual: " ++ actual_hash)), [])
  else
    match (if config.backup_enabled then create_backup env config package_name
           else (.ok (), [])) with
    | (.error e, eff) => (.error e, eff)
    | (.ok _, eff1) =>
      match env.ensureDir with
      | .error e => (.error e, eff1 ++ [.ensureDir config.deploy_path])
      | .ok _ =>
        match env.unpack with
        | .error e =>
          (.error e, eff1 ++ [.ensureDir config.deploy_path,
            .extract config.deploy_path])
        | .ok _ =>
          (.ok (), eff1 ++ [.ensureDir config.deploy_path,
            .extract config.deploy_path])

/-- The error-detail lines appended to a failure response: the handler adds a
Details line when the engine error is a DeployError
(src/server.rs, lines 152-158). -/
def deployDetails : AdeployError → List DeployLogEntry
  | .Deploy msg => [DeployLogEntry.error ("Details: " ++ msg)]
  | _ => []

/-- execute_deployment (src/server.rs, lines 190-269): opening transcript line
carrying the deploy id, then pre-hook, then extract_files (which performs the
hash verification, backup and extraction), then post-hook.  A pre-hook or
extraction failure aborts with the error (the accumulated transcript local is
dropped); a post-hook failure is logged at error level and the deployment
still completes.  Captured hook output lines are appended to the transcript
(the code extends the entry vector with the captured strings; they are
modelled as info-level entries). -/
def execute_deployment (env : DeployEnv) (package_config : ServerPackageConfig)
    (file_data : List Nat) (file_hash : String) (package_name : String) :
    Except AdeployError (List DeployLogEntry) × List FsEffect :=
  let logs0 := [DeployLogEntry.info ("[" ++ env.deploy_id ++
                  "] Starting deployment execution"),
                DeployLogEntry.info "Running Before-deploy script..."]
  match run_deploy_script env package_config.before_deploy_script
      "Before-deploy" with
  | (.error e, eff1) => (.error e, eff1)
  | (.ok pre_logs, eff1) =>
    let logs1 := logs0 ++ pre_logs.map DeployLogEntry.info ++
      [DeployLogEntry.info "Before-deploy script succeeded",
       DeployLogEntry.info "Extracting files..."]
    match extract_files env file_data file_hash package_config package_name with
    | (.error e, eff2) => (.error e, eff1 ++ eff2)
    | (.ok _, eff2) =>
      let logs2 := logs1 ++
        [DeployLogEntry.info "Files extracted and deployed successfully",
         DeployLogEntry.info "Running After-deploy script..."]
      match run_deploy_script env package_config.after_deploy_script
          "After-deploy" with
      | (.error e, eff3) =>
        (.ok (logs2 ++
          [DeployLogEntry.error ("After-deploy script failed: " ++
             AdeployError.display e),
           DeployLogEntry.info ("[" ++ env.deploy_id ++
             "] Deployment completed successfully")]),
         eff1 ++ eff2 ++ eff3)
      | (.ok post_logs, eff3) =>
        (.ok (logs2 ++ post_logs.map DeployLogEntry.info ++
          [DeployLogEntry.info "After-deploy script succeeded",
           DeployLogEntry.info ("[" ++ env.deploy_id ++
             "] Deployment completed successfully")]),
         eff1 ++ eff2 ++ eff3)

/-- The allow-list membership test of the request handler (src/server.rs,
lines 70-72): the request public key must equal some allowed_keys entry
exactly. -/
def isAllowedKey (allowed_keys : List String) (public_key : String) : Bool :=
  allowed_keys.any (fun allowed_key => allowed_key == public_key)

/-- The deploy RPC handler (src/server.rs, lines 42-168): decode the base64
signature (InvalidArgument on malformed input; the precise message suffix
comes from the base64 crate and is modelled as a fixed string), snapshot the
config, check allow-list membership, verify the Ed25519 signature, resolve
the package entry, enforce max_file_size, then run execute_deployment and
wrap its outcome in a DeployResponse (engine failures are carried in-band
with success set to false). -/
def deploy_handler (env : DeployEnv) (config : ServerConfig)
    (req : DeployRequest) :
    Except GrpcStatus DeployResponse × List FsEffect :=
  match base64Decode req.signature with
  | none => (.error (.invalidArgument "Invalid signature: malformed base64"), [])
  | some signature =>
    let allowed_keys := config.server.allowed_keys
    let package_config := lookupPackage config.packages req.package_name
    let max_file_size := config.server.max_file_size
    if isAllowedKey allowed_keys req.public_key then
      match env.verify req.public_key req.file_data signature with
      | .ok true =>
        match package_config with
        | none =>
          (.error (.notFound ("Package " ++ sq ++ req.package_name ++ sq ++
            " not configured")), [])
        | some pc =>
          if max_file_size > 0 ∧ req.file_data.length > max_file_size then
            (.error (.resourceExhausted
              ("Archive size exceeds configured max_file_size (" ++
               toString max_file_size ++ " bytes)")), [])
          else
            match execute_deployment env pc req.file_data req.file_hash
                req.package_name with
            | (.ok logs, effs) =>
              (.ok { success := true,
                     message := "Deployment completed successfully",
                     deploy_id := env.deploy_id, logs := logs }, effs)
            | (.error e, effs) =>
              (.ok { success := false, message := AdeployError.display e,
                     deploy_id := env.deploy_id,
                     logs := DeployLogEntry.error ("Deployment failed: " ++
                       AdeployError.display e) :: deployDetails e }, effs)
      | .ok false =>
        (.error (.unauthenticated "Invalid Ed25519 signature"), [])
      | .error e =>
        (.error (.unauthenticated ("Auth error: " ++ AdeployError.display e)),
         [])
    else
      (.error (.unauthenticated "Client public key not allowed"), [])

/-! ### Config watcher (src/server.rs, spawn_config_watcher, lines 414-448) -/

/-- Outcome of one reload attempt: the configuration published afterwards and
whether a port-change warning was emitted. -/
structure ReloadOutcome where
  config : ServerConfig
  port_warning : Bool
  deriving DecidableEq, Repr

/-- One iteration of the watcher body once the file parse result is known
(src/server.rs, lines 414-448): a parse failure keeps the published config; a
parse success is published, with the port overwritten by the currently
published port (and a warning) when it differs. -/
def reload_config (published : ServerConfig) (parsed : Option ServerConfig) :
    ReloadOutcome :=
  match parsed with
  | none => { config := published, port_warning := false }
  | some new_config =>
    if new_config.server.port ≠ published.server.port then
      { config := { new_config with
          server := { new_config.server with port := published.server.port } },
        port_warning := true }
    else
      { config := new_config, port_warning := false }

/-- The configuration published after a sequence of reload attempts. -/
def reload_many (published : ServerConfig)
    (parses : List (Option ServerConfig)) : ServerConfig :=
  parses.foldl (fun current parsed => (reload_config current parsed).config)
    published

/-! ### Client (src/client.rs, deploy_packages) -/

/-- The fixed gRPC message-size limit installed on the client channel
(src/client.rs, lines 88-90: max_decoding_message_size and
max_encoding_message_size are both hard-coded to 100 MiB). -/
def client_message_limit : Nat := 100 * 1024 * 1024

/-- The environment of one client invocation: oracles for the network channel,
the key-pair resolution and loading (collapsed into one outcome, already
wrapped in the AdeployError produced by the code), the loaded base64 public
key string, the signing primitive, the Archiver (package_files from
src/deploy.rs, returning archive bytes and their hex SHA-256), and the remote
deploy RPC. -/
structure ClientEnv where
  connect : String → Except String Unit
  load_keys : Except AdeployError Unit
  public_key : String
  sign : List Nat → Except AdeployError (List Nat)
  package_files : String → ClientPackageConfig →
    Except AdeployError (List Nat × String)
  send : DeployRequest → Except GrpcStatus DeployResponse

/-- The package-selection step of deploy_packages (src/client.rs, lines
176-186): requested names are filtered against the configured package map;
names without a configured entry are dropped silently. -/
def select_packages (config : ClientConfig) (names : List String) :
    List (String × ClientPackageConfig) :=
  names.filterMap (fun name =>
    (lookupClientPackage config.packages name).map (fun pc => (name, pc)))

/-- The per-package deployment loop of deploy_packages (src/client.rs, lines
195-254): archive, sign, build the request, send it, surface the transcript;
a transport error or an in-band failure stops processing subsequent packages.
The second component is the ordered list of requests actually transmitted. -/
def deploy_loop (env : ClientEnv) (public_key : String) :
    List (String × ClientPackageConfig) →
    Except AdeployError Unit × List DeployRequest
  | [] => (.ok (), [])
  | (package_name, package_config) :: rest =>
    match env.package_files package_name package_config with
    | .error e => (.error e, [])
    | .ok (archive_data, file_hash) =>
      match env.sign archive_data with
      | .error e =>
        (.error (.Auth ("Failed to sign data: " ++ AdeployError.display e)), [])
      | .ok signature_bytes =>
        let request : DeployRequest :=
          { package_name := package_name, version := "1.0.0",
            file_data := archive_data, file_hash := file_hash,
            signature := base64Encode signature_bytes,
            public_key := public_key }
        match env.send request with
        | .error status => (.error (.Grpc status), [request])
        | .ok response =>
          if response.success then
            match deploy_loop env public_key rest with
            | (res, sent) => (res, request :: sent)
          else
            (.error (.Deploy ("Package " ++ package_name ++
              " deployment failed: " ++ response.message)), [request])

/-- deploy_packages (src/client.rs, lines 63-257): resolve the remote entry
(host key or default), build and connect the channel to host:port, resolve
and load the key pair and public key, select the requested packages that are
configured, fail when none is, then run the per-package loop.  The second
component is the list of requests transmitted. -/
def deploy_packages (env : ClientEnv) (config : ClientConfig) (host : String)
    (package_names : Option (List String)) :
    Except AdeployError Unit × List DeployRequest :=
  match get_remote_config config host with
  | none =>
    (.error (.Config ("No server configuration found for host: " ++ host)), [])
  | some server_config =>
    let endpoint := "http://" ++ host ++ ":" ++ toString server_config.port
    match env.connect endpoint with
    | .error e => (.error (.Network ("Failed to connect: " ++ e)), [])
    | .ok _ =>
      match env.load_keys with
      | .error e => (.error e, [])
      | .ok _ =>
        match package_names with
        | none => (.error (.Config "No packages found to deploy"), [])
        | some names =>
          let packages_to_deploy := select_packages config names
          if packages_to_deploy.isEmpty then
            (.error (.Config "No packages found to deploy"), [])
          else
            deploy_loop env env.public_key packages_to_deploy

/-- A client configuration with every remote entry given the same
max_file_size value; used to state that the deployment flow never consults
that field. -/
def set_remote_max_file_size (config : ClientConfig) (v : Option Nat) :
    ClientConfig :=
  { config with
    remotes := config.remotes.map
      (fun p => (p.1, { p.2 with max_file_size := v })) }

/-! ### Helper lemmas -/

/-- Every reload attempt preserves the published port. -/
theorem reload_config_port (published : ServerConfig)
    (parsed : Option ServerConfig) :
    (reload_config published parsed).config.server.port =
      published.server.port := by
  cases parsed with
  | none => rfl
  | some c =>
    unfold reload_config
    by_cases h : c.server.port = published.server.port
    · simp [h]
    · simp [h]

/-- The published port is invariant across any sequence of reload attempts. -/
theorem reload_many_port (parses : List (Option ServerConfig))
    (published : ServerConfig) :
    (reload_many published parses).server.port = published.server.port := by
  induction parses generalizing published with
  | nil => rfl
  | cons head tail ih =>
    unfold reload_many
    rw [List.foldl_cons]
    have := ih (reload_config published head).config
    unfold reload_many at this
    rw [this, reload_config_port]

/-- The hook runner emits exactly one subprocess effect, on every branch. -/
theorem execute_script_effects (env : DeployEnv) (script_path : String) :
    (execute_script env script_path).2 = [FsEffect.execScript script_path] := by
  unfold execute_script
  cases env.shell script_path with
  | error e => rfl
  | ok out =>
    dsimp only
    split <;> rfl

/-- Every effect of a hook stage is a subprocess execution. -/
theorem run_deploy_script_effects (env : DeployEnv)
    (script_path : Option String) (stage_name : String) (eff : FsEffect)
    (hmem : eff ∈ (run_deploy_script env script_path stage_name).2) :
    ∃ cmd, eff = FsEffect.execScript cmd := by
  cases script_path with
  | none => simp [run_deploy_script] at hmem
  | some path =>
    refine ⟨path, ?_⟩
    unfold run_deploy_script at hmem
    rw [execute_script_effects] at hmem
    simpa using hmem

/-! ### C5 -/

/-- C5: a failed parse leaves the previously published config in effect; a
successful parse is published verbatim except that a differing server.port is
overwritten with the currently published port (with a warning); hence the
published port is invariant across any sequence of reloads. -/
theorem C5_theorem (published new_config : ServerConfig)
    (history : List (Option ServerConfig)) :
    reload_config published none =
      { config := published, port_warning := false } ∧
    reload_config published (some new_config) =
      (if new_config.server.port = published.server.port then
        { config := new_config, port_warning := false }
      else
        { config := { new_config with
            server := { new_config.server with
              port := published.server.port } },
          port_warning := true }) ∧
    (reload_many published history).server.port = published.server.port := by
  refine ⟨rfl, ?_, reload_many_port history published⟩
  unfold reload_config
  by_cases h : new_config.server.port = published.server.port
  · simp [h]
  · simp [h]

/-! ### C7 -/

/-- C7 counterexample inputs: the allow-list holds the key without trailing
whitespace, the request carries the same key with a trailing newline. -/
def envC7 : DeployEnv :=
  { deploy_id := "id-c7", sha256 := fun _ => "h",
    verify := fun _ _ _ => .ok true,
    shell := fun _ =>
      .ok
        { stdout_lines := [], stderr_lines := [],
          exit_code := 0, success := true },
    backup := .ok (), ensureDir := .ok (), unpack := .ok () }

/-- C7 counterexample package entry. -/
def pkgC7 : ServerPackageConfig :=
  { deploy_path := "/srv/app",
    before_deploy_script := none, after_deploy_script := none,
    backup_enabled := false, backup_path := none }

/-- C7 counterexample server config. -/
def cfgC7 : ServerConfig :=
  { packages := [("app", pkgC7)],
    server :=
      { port := 6060, max_file_size := 0,
        allowed_keys := ["PUBKEY"] } }

/-- C7 counterexample request: the transmitted public key differs from the
listed entry only by a trailing newline. -/
def reqC7 : DeployRequest :=
  { package_name := "app", version := "1.0.0", file_data := [],
    file_hash := "h", signature := "", public_key := "PUBKEY\n" }

/-- C7 counterexample: the claim says a key matching an allow-list entry up to
leading/trailing whitespace is accepted as a member; the handler instead
rejects the request with Unauthenticated, because the membership test never
trims either side. -/
theorem C7_counterexample :
    deploy_handler envC7 cfgC7 reqC7 =
      (.error (.unauthenticated "Client public key not allowed"), []) := by
  rfl

/-- C7 (amended): the allow-list membership test of the handler is exact
byte-for-byte string equality: a request key is a member precisely when it is
literally one of the allowed_keys entries, with no whitespace trimming on
either side. -/
theorem C7_theorem (allowed_keys : List String) (public_key : String) :
    isAllowedKey allowed_keys public_key = true ↔ public_key ∈ allowed_keys := by
  unfold isAllowedKey
  rw [List.any_eq_true]
  constructor
  · rintro ⟨k, hk, he⟩
    rw [beq_iff_eq] at he
    rwa [he] at hk
  · intro h
    exact ⟨public_key, h, beq_self_eq_true public_key⟩

/-! ### C8 -/

/-- C8 counterexample environment: the shell reports command-not-found
(exit 127) for the literal command none, as sh does. -/
def envC8 : DeployEnv :=
  { deploy_id := "id-c8", sha256 := fun _ => "h",
    verify := fun _ _ _ => .ok true,
    shell := fun _ =>
      .ok
        { stdout_lines := [],
          stderr_lines := ["sh: 1: none: not found"], exit_code := 127,
          success := false },
    backup := .ok (), ensureDir := .ok (), unpack := .ok () }

/-- C8 counterexample: the claim says a hook whose configured command string
is the literal none performs no subprocess execution and succeeds with an
empty log list; the code only skips an unset command, so the literal none is
handed to the shell (one subprocess effect) and its non-zero exit fails the
stage with a DeployError. -/
theorem C8_counterexample :
    run_deploy_script envC8 (some "none") "Before-deploy" =
      (.error (.Deploy ("Script " ++ sq ++ "none" ++ sq ++
        " execution failed with exit code: 127")),
       [FsEffect.execScript "none"]) := by
  rfl

/-- C8 (amended): only an unset hook command is skipped, with no subprocess
execution, succeeding with an empty log list (the skip notice goes to the
process log, not the returned list); any configured command string, the
literal none included, is always handed to the shell, producing exactly one
subprocess effect. -/
theorem C8_theorem (env : DeployEnv) (stage_name cmd : String) :
    run_deploy_script env none stage_name = (.ok [], []) ∧
    run_deploy_script env (some cmd) stage_name = execute_script env cmd ∧
    (execute_script env cmd).2 = [FsEffect.execScript cmd] :=
  ⟨rfl, rfl, execute_script_effects env cmd⟩

/-! ### C2 -/

/-- C2 counterexample environment. -/
def envC2 : DeployEnv :=
  { deploy_id := "id-c2", sha256 := fun _ => "h",
    verify := fun _ _ _ => .ok true,
    shell := fun _ =>
      .ok
        { stdout_lines := [], stderr_lines := [],
          exit_code := 0, success := true },
    backup := .ok (), ensureDir := .ok (), unpack := .ok () }

/-- C2 counterexample server config: one allowed key. -/
def cfgC2 : ServerConfig :=
  { packages := [],
    server :=
      { port := 6060, max_file_size := 0,
        allowed_keys := ["goodkey"] } }

/-- C2 counterexample request: the public key is not on the allow-list and
the signature field is not valid base64. -/
def reqC2 : DeployRequest :=
  { package_name := "app", version := "1.0.0", file_data := [],
    file_hash := "h", signature := "!!!", public_key := "stranger" }

/-- C2 counterexample: the claim quantifies over every request whose public
key is not on the allow-list and promises an Unauthenticated status; for a
request whose signature field is malformed base64 the handler instead returns
InvalidArgument, because the signature decode precedes the membership test. -/
theorem C2_counterexample :
    isAllowedKey cfgC2.server.allowed_keys reqC2.public_key = false ∧
    deploy_handler envC2 cfgC2 reqC2 =
      (.error (.invalidArgument "Invalid signature: malformed base64"), []) := by
  exact ⟨rfl, rfl⟩

/-- C2 (amended): for every request whose signature field decodes as base64,
a public key that is not a member of allowed_keys is rejected with
Unauthenticated and no effect, for every verification oracle — so before any
cryptographic verification and before any engine work; and membership alone
is insufficient: a listed key whose signature fails verification over the
archive bytes is also rejected with Unauthenticated and no effect. -/
theorem C2_theorem (env : DeployEnv) (config : ServerConfig)
    (req : DeployRequest) (sigBytes : List Nat)
    (hdec : base64Decode req.signature = some sigBytes) :
    (isAllowedKey config.server.allowed_keys req.public_key = false →
      deploy_handler env config req =
        (.error (.unauthenticated "Client public key not allowed"), [])) ∧
    (isAllowedKey config.server.allowed_keys req.public_key = true →
      env.verify req.public_key req.file_data sigBytes = .ok false →
      deploy_handler env config req =
        (.error (.unauthenticated "Invalid Ed25519 signature"), [])) := by
  constructor
  · intro hmem
    unfold deploy_handler
    rw [hdec]
    simp [hmem]
  · intro hmem hver
    unfold deploy_handler
    rw [hdec]
    simp [hmem, hver]

/-- C2 witness environment. -/
def envC2w : DeployEnv :=
  { deploy_id := "id-c2w", sha256 := fun _ => "h",
    verify := fun _ _ _ => .ok true,
    shell := fun _ =>
      .ok
        { stdout_lines := [], stderr_lines := [],
          exit_code := 0, success := true },
    backup := .ok (), ensureDir := .ok (), unpack := .ok () }

/-- C2 witness server config. -/
def cfgC2w : ServerConfig :=
  { packages := [],
    server :=
      { port := 6060, max_file_size := 0,
        allowed_keys := ["goodkey"] } }

/-- C2 witness request: empty signature decodes as the empty byte string. -/
def reqC2w : DeployRequest :=
  { package_name := "app", version := "1.0.0", file_data := [],
    file_hash := "h", signature := "", public_key := "stranger" }

/-- C2 witness: the amended theorem applied at a concrete unlisted key. -/
theorem C2_witness :
    base64Decode reqC2w.signature = some [] ∧
    deploy_handler envC2w cfgC2w reqC2w =
      (.error (.unauthenticated "Client public key not allowed"), []) :=
  ⟨rfl, (C2_theorem envC2w cfgC2w reqC2w [] rfl).1 rfl⟩

/-! ### C6 -/

/-- C6 counterexample environment. -/
def envC6 : DeployEnv :=
  { deploy_id := "id-c6", sha256 := fun _ => "h",
    verify := fun _ _ _ => .ok true,
    shell := fun _ =>
      .ok
        { stdout_lines := [], stderr_lines := [],
          exit_code := 0, success := true },
    backup := .ok (), ensureDir := .ok (), unpack := .ok () }

/-- C6 counterexample server config: no package entries and a 10-byte
max_file_size. -/
def cfgC6 : ServerConfig :=
  { packages := [],
    server :=
      { port := 6060, max_file_size := 10,
        allowed_keys := ["k"] } }

/-- C6 counterexample request: authenticated, 20-byte payload (oversize),
package not configured. -/
def reqC6 : DeployRequest :=
  { package_name := "ghost", version := "1.0.0",
    file_data := List.replicate 20 0,
    file_hash := "h", signature := "", public_key := "k" }

/-- C6 counterexample: the claim promises ResourceExhausted for a request
that is both oversize and names an unconfigured package; the handler resolves
the package first and returns NotFound. -/
theorem C6_counterexample :
    cfgC6.server.max_file_size < reqC6.file_data.length ∧
    deploy_handler envC6 cfgC6 reqC6 =
      (.error (.notFound ("Package " ++ sq ++ "ghost" ++ sq ++
        " not configured")), []) := by
  exact ⟨by decide, rfl⟩

/-- C6 (amended): package resolution precedes the payload-size check: an
authenticated request naming an unconfigured package yields NotFound
regardless of the payload length (in particular when it exceeds
max_file_size); the ResourceExhausted size rejection can only arise for
configured packages. -/
theorem C6_theorem (env : DeployEnv) (config : ServerConfig)
    (req : DeployRequest) (sigBytes : List Nat)
    (hdec : base64Decode req.signature = some sigBytes)
    (hmem : isAllowedKey config.server.allowed_keys req.public_key = true)
    (hver : env.verify req.public_key req.file_data sigBytes = .ok true)
    (hpkg : lookupPackage config.packages req.package_name = none) :
    deploy_handler env config req =
      (.error (.notFound ("Package " ++ sq ++ req.package_name ++ sq ++
        " not configured")), []) := by
  unfold deploy_handler
  rw [hdec]
  simp [hmem, hver, hpkg]

/-- C6 witness environment. -/
def envC6w : DeployEnv :=
  { deploy_id := "id-c6w", sha256 := fun _ => "h",
    verify := fun _ _ _ => .ok true,
    shell := fun _ =>
      .ok
        { stdout_lines := [], stderr_lines := [],
          exit_code := 0, success := true },
    backup := .ok (), ensureDir := .ok (), unpack := .ok () }

/-- C6 witness server config. -/
def cfgC6w : ServerConfig :=
  { packages := [],
    server :=
      { port := 6060, max_file_size := 4,
        allowed_keys := ["k"] } }

/-- C6 witness request: oversize payload for an unconfigured package. -/
def reqC6w : DeployRequest :=
  { package_name := "absent", version := "1.0.0",
    file_data := [0, 0, 0, 0, 0, 0, 0, 0],
    file_hash := "h", signature := "", public_key := "k" }

/-- C6 witness: the amended theorem applied at a concrete oversize request
for an unconfigured package. -/
theorem C6_witness :
    base64Decode reqC6w.signature = some [] ∧
    deploy_handler envC6w cfgC6w reqC6w =
      (.error (.notFound ("Package " ++ sq ++ "absent" ++ sq ++
        " not configured")), []) :=
  ⟨rfl, C6_theorem envC6w cfgC6w reqC6w [] rfl rfl rfl rfl⟩

/-! ### C1 -/

/-- C1 counterexample environment: every command succeeds, and the recomputed
hash of any archive is actualhash. -/
def envC1 : DeployEnv :=
  { deploy_id := "id-c1", sha256 := fun _ => "actualhash",
    verify := fun _ _ _ => .ok true,
    shell := fun _ =>
      .ok
        { stdout_lines := [], stderr_lines := [],
          exit_code := 0, success := true },
    backup := .ok (), ensureDir := .ok (), unpack := .ok () }

/-- C1 counterexample package entry with a configured pre-hook. -/
def pkgC1 : ServerPackageConfig :=
  { deploy_path := "/srv/app",
    before_deploy_script := some "pre.sh", after_deploy_script := none,
    backup_enabled := true, backup_path := none }

/-- C1 counterexample: the claim promises a DeployError before the pre-hook
runs for a hash mismatch; the engine runs the pre-hook first (the effect
trace records its subprocess execution) and only then fails the hash check
inside extract_files, so the filesystem is not left untouched by the
pre-hook.  Backup and extraction indeed do not happen. -/
theorem C1_counterexample :
    execute_deployment envC1 pkgC1 [0] "claimedhash" "app" =
      (.error (.Deploy
        "Hash verification failed. Expected: claimedhash, Actual: actualhash"),
       [FsEffect.execScript "pre.sh"]) := by
  rfl

/-- C1 (amended): when the pre-hook stage succeeds and the recomputed SHA-256
of the archive differs from the claimed file_hash, the engine returns the
hash-mismatch DeployError with the pre-hook effects as the entire trace: no
backup, no deploy-directory creation and no extraction occur, and every
effect that did occur is a pre-hook subprocess execution.  (The pre-hook has
already run by then, so the claim holds only from the backup stage onward.) -/
theorem C1_theorem (env : DeployEnv) (pc : ServerPackageConfig)
    (file_data : List Nat) (file_hash package_name : String)
    (pre_logs : List String) (pre_effs : List FsEffect)
    (hpre : run_deploy_script env pc.before_deploy_script "Before-deploy" =
      (.ok pre_logs, pre_effs))
    (hmismatch : env.sha256 file_data ≠ file_hash) :
    execute_deployment env pc file_data file_hash package_name =
      (.error (.Deploy ("Hash verification failed. Expected: " ++ file_hash ++
        ", Actual: " ++ env.sha256 file_data)), pre_effs) ∧
    ∀ eff ∈ pre_effs, ∃ cmd, eff = FsEffect.execScript cmd := by
  constructor
  · unfold execute_deployment
    rw [hpre]
    unfold extract_files
    simp [hmismatch]
  · intro eff hmem
    refine run_deploy_script_effects env pc.before_deploy_script
      "Before-deploy" eff ?_
    rw [hpre]
    exact hmem

/-- C1 witness environment. -/
def envC1w : DeployEnv :=
  { deploy_id := "id-c1w", sha256 := fun _ => "actual",
    verify := fun _ _ _ => .ok true,
    shell := fun _ =>
      .ok
        { stdout_lines := [], stderr_lines := [],
          exit_code := 0, success := true },
    backup := .ok (), ensureDir := .ok (), unpack := .ok () }

/-- C1 witness package entry (no pre-hook configured, so the pre-hook stage
trivially succeeds with an empty trace). -/
def pkgC1w : ServerPackageConfig :=
  { deploy_path := "/srv/app",
    before_deploy_script := none, after_deploy_script := none,
    backup_enabled := true, backup_path := none }

/-- C1 witness: the amended theorem applied at a concrete mismatching hash. -/
theorem C1_witness :
    envC1w.sha256 [] ≠ "claimed" ∧
    execute_deployment envC1w pkgC1w [] "claimed" "app" =
      (.error (.Deploy
        "Hash verification failed. Expected: claimed, Actual: actual"), []) :=
  ⟨by decide,
   (C1_theorem envC1w pkgC1w [] "claimed" "app" [] [] rfl (by decide)).1⟩

/-! ### C3 -/

/-- C3: for a deploy that passes authentication, package resolution and the
size check, whose pre-hook stage and extraction stage succeed and whose
post-hook stage fails, the handler still answers success with the full
transcript — which contains the error-level entry citing the post-hook
failure followed by the terminal completion line — and the effect trace keeps
every extraction-stage effect (there is no rollback effect), so the extracted
files remain under the deploy directory. -/
theorem C3_theorem (env : DeployEnv) (config : ServerConfig)
    (req : DeployRequest) (pc : ServerPackageConfig) (sigBytes : List Nat)
    (pre_logs : List String) (eff1 eff2 eff3 : List FsEffect)
    (e : AdeployError)
    (hdec : base64Decode req.signature = some sigBytes)
    (hmem : isAllowedKey config.server.allowed_keys req.public_key = true)
    (hver : env.verify req.public_key req.file_data sigBytes = .ok true)
    (hpkg : lookupPackage config.packages req.package_name = some pc)
    (hsize : ¬(config.server.max_file_size > 0 ∧
      req.file_data.length > config.server.max_file_size))
    (hpre : run_deploy_script env pc.before_deploy_script "Before-deploy" =
      (.ok pre_logs, eff1))
    (hext : extract_files env req.file_data req.file_hash pc
      req.package_name = (.ok (), eff2))
    (hpost : run_deploy_script env pc.after_deploy_script "After-deploy" =
      (.error e, eff3)) :
    deploy_handler env config req =
      (.ok { success := true,
             message := "Deployment completed successfully",
             deploy_id := env.deploy_id,
             logs := [DeployLogEntry.info ("[" ++ env.deploy_id ++
                        "] Starting deployment execution"),
                      DeployLogEntry.info "Running Before-deploy script..."] ++
               pre_logs.map DeployLogEntry.info ++
               [DeployLogEntry.info "Before-deploy script succeeded",
                DeployLogEntry.info "Extracting files...",
                DeployLogEntry.info "Files extracted and deployed successfully",
                DeployLogEntry.info "Running After-deploy script...",
                DeployLogEntry.error ("After-deploy script failed: " ++
                  AdeployError.display e),
                DeployLogEntry.info ("[" ++ env.deploy_id ++
                  "] Deployment completed successfully")] },
       eff1 ++ eff2 ++ eff3) ∧
    ∀ eff ∈ eff2, eff ∈ eff1 ++ eff2 ++ eff3 := by
  constructor
  · unfold deploy_handler
    rw [hdec]
    simp only [hmem, if_true]
    rw [hver, hpkg]
    simp only [hsize, if_false]
    unfold execute_deployment
    rw [hpre, hext, hpost]
    simp
  · intro eff hmem2
    simp [hmem2]

/-- C3 witness environment: the shell fails every command with exit code 1
(only the post-hook is configured, so only it runs), hashes match, extraction
succeeds. -/
def envC3w : DeployEnv :=
  { deploy_id := "id-c3w", sha256 := fun _ => "h",
    verify := fun _ _ _ => .ok true,
    shell := fun _ =>
      .ok
        { stdout_lines := [], stderr_lines := ["post hook failed"],
          exit_code := 1, success := false },
    backup := .ok (), ensureDir := .ok (), unpack := .ok () }

/-- C3 witness package entry: no pre-hook, backup disabled, failing
post-hook. -/
def pkgC3w : ServerPackageConfig :=
  { deploy_path := "/srv/app",
    before_deploy_script := none, after_deploy_script := some "post.sh",
    backup_enabled := false, backup_path := none }

/-- C3 witness server config. -/
def cfgC3w : ServerConfig :=
  { packages := [("app", pkgC3w)],
    server :=
      { port := 6060, max_file_size := 0,
        allowed_keys := ["k"] } }

/-- C3 witness request. -/
def reqC3w : DeployRequest :=
  { package_name := "app", version := "1.0.0", file_data := [7],
    file_hash := "h", signature := "", public_key := "k" }

/-- C3 witness post-hook failure error. -/
def errC3w : AdeployError :=
  .Deploy ("Script " ++ sq ++ "post.sh" ++ sq ++
    " execution failed with exit code: 1")

/-- C3 witness: the theorem applied at a concrete deploy whose post-hook
exits 1, exhibiting the success response, the error-level post-hook line and
the surviving extraction effects. -/
theorem C3_witness :
    deploy_handler envC3w cfgC3w reqC3w =
      (.ok { success := true,
             message := "Deployment completed successfully",
             deploy_id := "id-c3w",
             logs := [DeployLogEntry.info
                        "[id-c3w] Starting deployment execution",
                      DeployLogEntry.info "Running Before-deploy script...",
                      DeployLogEntry.info "Before-deploy script succeeded",
                      DeployLogEntry.info "Extracting files...",
                      DeployLogEntry.info
                        "Files extracted and deployed successfully",
                      DeployLogEntry.info "Running After-deploy script...",
                      DeployLogEntry.error ("After-deploy script failed: " ++
                        AdeployError.display errC3w),
                      DeployLogEntry.info
                        "[id-c3w] Deployment completed successfully"] },
       [FsEffect.ensureDir "/srv/app", FsEffect.extract "/srv/app",
        FsEffect.execScript "post.sh"]) :=
  (C3_theorem envC3w cfgC3w reqC3w pkgC3w [] [] []
    [FsEffect.ensureDir "/srv/app", FsEffect.extract "/srv/app"]
    [FsEffect.execScript "post.sh"] errC3w
    rfl rfl rfl rfl (by decide) rfl rfl rfl).1

/-! ### C4 -/

/-- C4 counterexample environment: the shell fails every command with exit
code 1, so the configured pre-hook aborts the deploy. -/
def envC4 : DeployEnv :=
  { deploy_id := "id-c4", sha256 := fun _ => "h",
    verify := fun _ _ _ => .ok true,
    shell := fun _ =>
      .ok
        { stdout_lines := ["starting pre hook"], stderr_lines := [],
          exit_code := 1, success := false },
    backup := .ok (), ensureDir := .ok (), unpack := .ok () }

/-- C4 counterexample package entry with a failing pre-hook. -/
def pkgC4 : ServerPackageConfig :=
  { deploy_path := "/srv/app",
    before_deploy_script := some "pre.sh", after_deploy_script := none,
    backup_enabled := false, backup_path := none }

/-- C4 counterexample server config. -/
def cfgC4 : ServerConfig :=
  { packages := [("app", pkgC4)],
    server :=
      { port := 6060, max_file_size := 0,
        allowed_keys := ["k"] } }

/-- C4 counterexample request. -/
def reqC4 : DeployRequest :=
  { package_name := "app", version := "1.0.0", file_data := [7],
    file_hash := "h", signature := "", public_key := "k" }

/-- C4 counterexample pre-hook failure error. -/
def errC4 : AdeployError :=
  .Deploy ("Script " ++ sq ++ "pre.sh" ++ sq ++
    " execution failed with exit code: 1")

/-- The transcript returned for the C4 counterexample deploy. -/
def responseLogsC4 : List DeployLogEntry :=
  match (deploy_handler envC4 cfgC4 reqC4).1 with
  | .ok r => r.logs
  | .error _ => []

/-- C4 counterexample: the claim promises that the failure response carries
the full transcript accumulated up to the failure, including the opening line
with the deploy id and the captured hook output; the handler actually drops
the accumulated transcript when the engine fails and returns only two
error entries, and neither the opening deploy-id line nor the captured
pre-hook stdout line (starting pre hook) appears in the response logs. -/
theorem C4_counterexample :
    deploy_handler envC4 cfgC4 reqC4 =
      (.ok { success := false,
             message := AdeployError.display errC4,
             deploy_id := "id-c4",
             logs := [DeployLogEntry.error ("Deployment failed: " ++
                        AdeployError.display errC4),
                      DeployLogEntry.error ("Details: Script " ++ sq ++
                        "pre.sh" ++ sq ++
                        " execution failed with exit code: 1")] },
       [FsEffect.execScript "pre.sh"]) ∧
    DeployLogEntry.info "[id-c4] Starting deployment execution" ∉
      responseLogsC4 ∧
    DeployLogEntry.info "starting pre hook" ∉ responseLogsC4 := by
  refine ⟨rfl, ?_, ?_⟩ <;> decide

/-- C4 (amended): when the engine fails, the handler returns a normal RPC
response with success set to false whose logs consist only of an error entry
Deployment failed followed, for a DeployError, by a Details entry repeating
the failure message; the transcript accumulated before the failure (the
opening deploy-id line and captured hook output) is discarded, and the deploy
id is carried in the deploy_id field of the response rather than in these
log entries. -/
theorem C4_theorem (env : DeployEnv) (config : ServerConfig)
    (req : DeployRequest) (pc : ServerPackageConfig) (sigBytes : List Nat)
    (e : AdeployError) (effs : List FsEffect)
    (hdec : base64Decode req.signature = some sigBytes)
    (hmem : isAllowedKey config.server.allowed_keys req.public_key = true)
    (hver : env.verify req.public_key req.file_data sigBytes = .ok true)
    (hpkg : lookupPackage config.packages req.package_name = some pc)
    (hsize : ¬(config.server.max_file_size > 0 ∧
      req.file_data.length > config.server.max_file_size))
    (hfail : execute_deployment env pc req.file_data req.file_hash
      req.package_name = (.error e, effs)) :
    deploy_handler env config req =
      (.ok { success := false,
             message := AdeployError.display e,
             deploy_id := env.deploy_id,
             logs := DeployLogEntry.error ("Deployment failed: " ++
               AdeployError.display e) :: deployDetails e },
       effs) := by
  unfold deploy_handler
  rw [hdec]
  simp only [hmem, if_true]
  rw [hver, hpkg]
  simp only [hsize, if_false]
  rw [hfail]

/-- C4 witness environment (pre-hook exits 2). -/
def envC4w : DeployEnv :=
  { deploy_id := "id-c4w", sha256 := fun _ => "h",
    verify := fun _ _ _ => .ok true,
    shell := fun _ =>
      .ok
        { stdout_lines := [], stderr_lines := [],
          exit_code := 2, success := false },
    backup := .ok (), ensureDir := .ok (), unpack := .ok () }

/-- C4 witness package entry. -/
def pkgC4w : ServerPackageConfig :=
  { deploy_path := "/srv/app",
    before_deploy_script := some "pre.sh", after_deploy_script := none,
    backup_enabled := false, backup_path := none }

/-- C4 witness server config. -/
def cfgC4w : ServerConfig :=
  { packages := [("app", pkgC4w)],
    server :=
      { port := 6060, max_file_size := 0,
        allowed_keys := ["k"] } }

/-- C4 witness request. -/
def reqC4w : DeployRequest :=
  { package_name := "app", version := "1.0.0", file_data := [7],
    file_hash := "h", signature := "", public_key := "k" }

/-- C4 witness engine error. -/
def errC4w : AdeployError :=
  .Deploy ("Script " ++ sq ++ "pre.sh" ++ sq ++
    " execution failed with exit code: 2")

/-- C4 witness: the amended theorem applied at a concrete failing deploy. -/
theorem C4_witness :
    deploy_handler envC4w cfgC4w reqC4w =
      (.ok { success := false,
             message := AdeployError.display errC4w,
             deploy_id := "id-c4w",
             logs := [DeployLogEntry.error ("Deployment failed: " ++
                        AdeployError.display errC4w),
                      DeployLogEntry.error ("Details: Script " ++ sq ++
                        "pre.sh" ++ sq ++
                        " execution failed with exit code: 2")] },
       [FsEffect.execScript "pre.sh"]) :=
  C4_theorem envC4w cfgC4w reqC4w pkgC4w [] errC4w
    [FsEffect.execScript "pre.sh"] rfl rfl rfl rfl (by decide) rfl

/-! ### C9 -/

/-- Updating every remote entry of an association list to a fixed
max_file_size commutes with first-match lookup. -/
theorem find_map_mfs (remotes : List (String × RemoteConfig)) (key : String)
    (v : Option Nat) :
    (remotes.map (fun p => (p.1, { p.2 with max_file_size := v }))).find?
        (fun p => p.1 == key) =
      (remotes.find? (fun p => p.1 == key)).map
        (fun p => (p.1, { p.2 with max_file_size := v })) := by
  induction remotes with
  | nil => rfl
  | cons head tail ih =>
    simp only [List.map_cons, List.find?]
    cases h : head.1 == key
    · simpa [h] using ih
    · simp [h]

/-- Remote-entry resolution after the max_file_size rewrite. -/
theorem get_remote_config_set (config : ClientConfig) (v : Option Nat)
    (host : String) :
    get_remote_config (set_remote_max_file_size config v) host =
      (get_remote_config config host).map
        (fun r => { r with max_file_size := v }) := by
  unfold get_remote_config set_remote_max_file_size
  simp only [find_map_mfs]
  cases config.remotes.find? (fun p => p.1 == host) with
  | some p => rfl
  | none =>
    cases config.remotes.find? (fun p => p.1 == "default") <;> rfl

/-- C9 (amended): the client consults no per-package archive-size bound at
all: the outcome and the transmitted requests of deploy_packages are
identical whatever max_file_size value the remote entries carry, and the only
size limit in the client is the fixed 100 MiB gRPC message limit installed on
the channel (client_message_limit), independent of the remote entry. -/
theorem C9_theorem (env : ClientEnv) (config : ClientConfig) (host : String)
    (package_names : Option (List String)) (v : Option Nat) :
    deploy_packages env (set_remote_max_file_size config v) host
        package_names =
      deploy_packages env config host package_names ∧
    client_message_limit = 104857600 := by
  refine ⟨?_, rfl⟩
  unfold deploy_packages
  rw [get_remote_config_set]
  cases hr : get_remote_config config host with
  | none => rfl
  | some r => rfl

/-- C9 counterexample client environment: archiving yields an 8-byte archive,
signing and sending succeed. -/
def envC9 : ClientEnv :=
  { connect := fun _ => .ok (),
    load_keys := .ok (),
    public_key := "PK",
    sign := fun _ => .ok [],
    package_files := fun _ _ => .ok (List.replicate 8 0, "hash"),
    send := fun _ =>
      .ok
        { success := true, message := "Deployment completed successfully",
          deploy_id := "d", logs := [] } }

/-- C9 counterexample remote entry: max_file_size of 4 bytes. -/
def remC9 : RemoteConfig :=
  { port := 6060, timeout := 30, max_file_size := some 4 }

/-- C9 counterexample client config. -/
def cfgC9 : ClientConfig :=
  { packages := [("p", { sources := ["src"] })],
    remotes := [("h", remC9)] }

/-- The request the C9 counterexample client transmits. -/
def reqC9 : DeployRequest :=
  { package_name := "p", version := "1.0.0",
    file_data := List.replicate 8 0, file_hash := "hash",
    signature := "", public_key := "PK" }

/-- C9 counterexample: the claim says the client enforces the remote entry
max_file_size (here 4 bytes) and fails the deploy of an oversize package
instead of transmitting it; the client transmits the 8-byte archive anyway
and the invocation succeeds — no size comparison happens. -/
theorem C9_counterexample :
    get_remote_config cfgC9 "h" = some remC9 ∧
    remC9.max_file_size = some 4 ∧
    reqC9.file_data.length = 8 ∧
    deploy_packages envC9 cfgC9 "h" (some ["p"]) = (.ok (), [reqC9]) := by
  exact ⟨rfl, rfl, rfl, rfl⟩

/-! ### C10 -/

/-- C10: with the remote resolved, the channel connected and the key pair
loaded, a non-empty list of requested names behaves as follows: requested
names without a configured package entry are silently dropped by
select_packages; the invocation fails with the ConfigError reading
No packages found to deploy precisely at the point where the selection is
empty, that is when no requested name is configured; otherwise the loop runs
on exactly the configured subset, and every selected pair is a requested name
together with its configured entry. -/
theorem C10_theorem (env : ClientEnv) (config : ClientConfig) (host : String)
    (names : List String) (remote : RemoteConfig)
    (hremote : get_remote_config config host = some remote)
    (hconnect : env.connect ("http://" ++ host ++ ":" ++
      toString remote.port) = .ok ())
    (hkeys : env.load_keys = .ok ())
    (hnames : names ≠ []) :
    (select_packages config names = [] →
      deploy_packages env config host (some names) =
        (.error (.Config "No packages found to deploy"), [])) ∧
    (select_packages config names ≠ [] →
      deploy_packages env config host (some names) =
        deploy_loop env env.public_key (select_packages config names)) ∧
    (∀ name pc, (name, pc) ∈ select_packages config names →
      name ∈ names ∧ lookupClientPackage config.packages name = some pc) := by
  refine ⟨?_, ?_, ?_⟩
  · intro hempty
    unfold deploy_packages
    rw [hremote]
    simp only []
    rw [hconnect, hkeys]
    simp [hempty]
  · intro hnonempty
    unfold deploy_packages
    rw [hremote]
    simp only []
    rw [hconnect, hkeys]
    simp [List.isEmpty_iff, hnonempty]
  · intro name pc hmem
    unfold select_packages at hmem
    rcases List.mem_filterMap.mp hmem with ⟨n, hn, hf⟩
    cases hl : lookupClientPackage config.packages n with
    | none => rw [hl] at hf; simp at hf
    | some q =>
      rw [hl] at hf
      have hpair : (n, q) = (name, pc) := by simpa using hf
      have h1 : n = name := congrArg Prod.fst hpair
      have h2 : q = pc := congrArg Prod.snd hpair
      subst h1
      subst h2
      exact ⟨hn, hl⟩

/-- C10 witness client environment. -/
def envC10w : ClientEnv :=
  { connect := fun _ => .ok (),
    load_keys := .ok (),
    public_key := "PK",
    sign := fun _ => .ok [],
    package_files := fun _ _ => .ok ([], "h"),
    send := fun _ =>
      .ok
        { success := true, message := "Deployment completed successfully",
          deploy_id := "d", logs := [] } }

/-- C10 witness remote entry. -/
def remC10w : RemoteConfig :=
  { port := 1, timeout := 0, max_file_size := none }

/-- C10 witness client config: one configured package named real. -/
def cfgC10w : ClientConfig :=
  { packages := [("real", { sources := ["s"] })],
    remotes := [("h", remC10w)] }

/-- C10 witness: the theorem applied where the single requested name is not
configured, yielding the ConfigError. -/
theorem C10_witness :
    select_packages cfgC10w ["ghost"] = [] ∧
    deploy_packages envC10w cfgC10w "h" (some ["ghost"]) =
      (.error (.Config "No packages found to deploy"), []) :=
  ⟨rfl,
   (C10_theorem envC10w cfgC10w "h" ["ghost"] remC10w rfl rfl rfl
     (by simp)).1 rfl⟩

end Adeploy
